import Mathlib

/-!
Verification of the natural-language specification of
`aviary/mission/gasp_based/ode/unsteady_solved/unsteady_solved_ode.py`
(class `UnsteadySolvedODE`).

The source file is a single OpenMDAO `Group.setup` method: it declares
configuration options, adds subsystems to itself and to two nested groups
(`control_iter_group` and, when throttle balancing is on,
`throttle_balance_group`), configures two `BalanceComp` components and two
Newton solvers, and installs per-node input defaults.  We embed `setup` as a
pure function from the declared options to a record describing the structure
it builds: which subsystem is added under which parent, the balance
specifications (unknown name, initial value, residual operand names, bounds),
the Newton solver settings, and the input defaults.  Numeric values use `ℚ`.
-/

namespace Aviary

/-- Airspeed input representation (aviary.variable_info.enums.SpeedType).
The default declared by the ODE is true airspeed. -/
inductive SpeedType
  | TAS
  | EAS
  | MACH
deriving DecidableEq, Repr

/-- Kind of a core-subsystem builder, mirroring the isinstance chain in
`setup` (lines 160 and 166): `AerodynamicsBuilderBase` is tested first, then
`PropulsionBuilderBase`, and everything else falls to the final branch. -/
inductive BuilderKind
  | aerodynamics
  | propulsion
  | other
deriving DecidableEq, Repr

/-- A core-subsystem builder as consumed by `setup`: its name, its kind, and
whether `build_mission` returns a system (line 159 skips builders whose
`build_mission` returns None). -/
structure Builder where
  name : String
  kind : BuilderKind
  buildsSystem : Bool
deriving DecidableEq, Repr

/-- Options of `UnsteadySolvedODE`: the five declared in `initialize`
(lines 37-63) together with the base-class options that `setup` reads
(lines 66-72).  Of the base options only `num_nodes` and `core_subsystems`
affect the structure we model; `aviary_options` and `subsystem_options` are
passed through to external builders. -/
structure Options where
  num_nodes : Nat
  core_subsystems : List Builder
  ground_roll : Bool
  clean : Bool
  include_param_comp : Bool
  input_speed_type : SpeedType
  balance_throttle : Bool
deriving DecidableEq, Repr

/-- Names of every option declared on this ODE.  The last five come from
`initialize` in the source (lines 37-63); the first four are the base-class
options read at the top of `setup` (lines 66-72, `BaseODE` itself is outside
src/).  No other option is declared. -/
def declaredOptionNames : List String :=
  ["num_nodes", "aviary_options", "subsystem_options", "core_subsystems",
   "ground_roll", "clean", "include_param_comp", "input_speed_type",
   "balance_throttle"]

/-- Where a subsystem is added: directly on the ODE (`self.add_subsystem`),
inside `control_iter_group`, or inside `throttle_balance_group`.  Both groups
are themselves added directly on the ODE (lines 117 and 124). -/
inductive Location
  | topLevel
  | controlIterGroup
  | throttleBalanceGroup
deriving DecidableEq, Repr

/-- Kind tag for each subsystem added by `setup`. -/
inductive SubsystemKind
  | paramPort
  | variablesIn
  | atmosphere
  | gammaComp
  | flightConditions
  | group
  | balanceComp
  | eomComp
  | execComp
  | builderSystem (k : BuilderKind)
deriving DecidableEq, Repr

/-- Variable-name constant from aviary.variable_info.variables (outside
src/); the exact string is immaterial to the structural claims. -/
def THROTTLE : String := "throttle"

/-- Variable-name constant from aviary.variable_info.variables (outside
src/). -/
def THRUST_TOTAL : String := "thrust_net_total"

/-- Variable-name constant from aviary.variable_info.variables (outside
src/). -/
def SPEED_OF_SOUND : String := "speed_of_sound"

/-- Variable-name constant from aviary.variable_info.variables (outside
src/). -/
def FLIGHT_PATH_ANGLE : String := "flight_path_angle"

/-- Variable-name constant from aviary.variable_info.variables (outside
src/). -/
def ALTITUDE : String := "altitude"

/-- Modelled from the spec: the sea-level density constant
`RHO_SEA_LEVEL_ENGLISH` imported from aviary.constants (not under src/),
0.0023769 slug/ft**3; the spec calls it simply sea-level density. -/
def RHO_SEA_LEVEL_ENGLISH : ℚ := 23769 / 10000000

/-- One `add_balance` call on an `om.BalanceComp`: the unknown it creates,
its units and per-node initial value, the names of the two residual operands
(residual is lhs minus rhs, optionally normalized), and the optional bounds
passed to the solver.  `lower`/`upper` are `none` when `add_balance` is
called without bounds (the BalanceComp default). -/
structure BalanceSpec where
  name : String
  units : String
  initVal : List ℚ
  lhs_name : String
  rhs_name : String
  eq_units : String
  normalize : Bool
  lower : Option ℚ
  upper : Option ℚ
deriving DecidableEq, Repr

/-- Line-search assigned to a Newton solver. -/
inductive Linesearch
  | boundsEnforceLS
  | armijoGoldsteinLS
deriving DecidableEq, Repr

/-- Settings of an `om.NewtonSolver` as configured by `setup`.  `maxiter` is
`none` when the code never sets it, so the implicit OpenMDAO default (10)
applies.  `err_on_non_converge` defaults to false in OpenMDAO and is recorded
true only where the code assigns it. -/
structure NewtonSolverSpec where
  solve_subsystems : Bool
  atol : ℚ
  rtol : ℚ
  maxiter : Option Nat
  err_on_non_converge : Bool
  linesearch : Option Linesearch
deriving DecidableEq, Repr

/-- OpenMDAO Newton solvers raise a distinguished AnalysisError on
exhausting `maxiter` without meeting tolerance exactly when the option
`err_on_non_converge` is true; otherwise execution continues and the current
(partially updated) values remain exposed.  This models the interface of the
external solver library the spec relies on. -/
def raisesOnNonConvergence (s : NewtonSolverSpec) : Bool :=
  s.err_on_non_converge

/-- Normalization factor of an `om.BalanceComp` residual (external library
component, modelled at its documented interface): for rhs of magnitude at
least 2 the factor is the reciprocal of that magnitude, otherwise a smooth
positive bump.  It is strictly positive for every rhs. -/
def scaleFactor (rhs : ℚ) : ℚ :=
  if 2 ≤ |rhs| then 1 / |rhs| else 1 / (rhs ^ 2 / 4 + 1)

/-- Residual of one node of an `om.BalanceComp` balance: lhs minus rhs,
multiplied by the normalization factor when `normalize` is true. -/
def balanceResidual (normalize : Bool) (lhs rhs : ℚ) : ℚ :=
  if normalize then (lhs - rhs) * scaleFactor rhs else lhs - rhs

/-- The balance added to `throttle_balance_comp` (lines 128-138): unknown
throttle per node, initial value 0.5, residual thrust_net_total minus
thrust_req in lbf, normalized, bounded to the interval from 0 to 1. -/
def throttleBalance (nn : Nat) : BalanceSpec :=
  { name := THROTTLE
    units := "unitless"
    initVal := List.replicate nn (1 / 2)
    lhs_name := THRUST_TOTAL
    rhs_name := "thrust_req"
    eq_units := "lbf"
    normalize := true
    lower := some 0
    upper := some 1 }

/-- The alpha balance of `thrust_alpha_bal` (lines 188-194), added only when
ground_roll is false: unknown alpha in rad starting at 0, residual
dgam_dt_approx minus dgam_dt in rad/s, unnormalized, unbounded. -/
def alphaBalance (nn : Nat) : BalanceSpec :=
  { name := "alpha"
    units := "rad"
    initVal := List.replicate nn 0
    lhs_name := "dgam_dt_approx"
    rhs_name := "dgam_dt"
    eq_units := "rad/s"
    normalize := false
    lower := none
    upper := none }

/-- The thrust_req balance of `thrust_alpha_bal` (lines 196-202): unknown
thrust_req in N starting at 100, residual dTAS_dt_approx minus dTAS_dt in
m/s**2, unnormalized, and with no lower or upper bound. -/
def thrustReqBalance (nn : Nat) : BalanceSpec :=
  { name := "thrust_req"
    units := "N"
    initVal := List.replicate nn 100
    lhs_name := "dTAS_dt_approx"
    rhs_name := "dTAS_dt"
    eq_units := "m/s**2"
    normalize := false
    lower := none
    upper := none }

/-- Newton solver of `throttle_balance_group` (lines 144-150):
solve_subsystems true, atol and rtol 1e-10, maxiter left at the solver
default, err_on_non_converge set true, BoundsEnforceLS line search. -/
def throttleSolverSpec : NewtonSolverSpec :=
  { solve_subsystems := true
    atol := 1 / 10 ^ 10
    rtol := 1 / 10 ^ 10
    maxiter := none
    err_on_non_converge := true
    linesearch := some Linesearch.boundsEnforceLS }

/-- Newton solver of `control_iter_group` (lines 208-210): solve_subsystems
true, atol and rtol 1e-10, maxiter left at the solver default, no line
search (the ArmijoGoldstein line is commented out in the source), and
err_on_non_converge never set, so the OpenMDAO default false applies. -/
def controlIterSolverSpec : NewtonSolverSpec :=
  { solve_subsystems := true
    atol := 1 / 10 ^ 10
    rtol := 1 / 10 ^ 10
    maxiter := none
    err_on_non_converge := false
    linesearch := none }

/-- Placement of a built core subsystem, mirroring the branch at lines
157-177: aerodynamics builders go into control_iter_group; propulsion
builders go into throttle_balance_group when balance_throttle is on and
otherwise directly onto the ODE; everything else goes directly onto the
ODE. -/
def builderLocation (balance_throttle : Bool) : BuilderKind → Location
  | BuilderKind.aerodynamics => Location.controlIterGroup
  | BuilderKind.propulsion =>
      if balance_throttle then Location.throttleBalanceGroup
      else Location.topLevel
  | BuilderKind.other => Location.topLevel

/-- Subsystem entries contributed by the core-subsystems loop (lines
157-177): one entry per builder whose `build_mission` returns a system,
placed by `builderLocation`. -/
def builderPlacements (balance_throttle : Bool) (bs : List Builder) :
    List (String × SubsystemKind × Location) :=
  (bs.filter (fun b => b.buildsSystem)).map
    (fun b => (b.name, SubsystemKind.builderSystem b.kind,
               builderLocation balance_throttle b.kind))

/-- The per-node expression of the `mass_rate` ExecComp (lines 214-225):
dmass_dr equals fuelflow times dt_dr, applied elementwise over the node
vector (the component declares diagonal partials). -/
def dmass_dr (fuelflow dt_dr : List ℚ) : List ℚ :=
  List.zipWith (fun f t => f * t) fuelflow dt_dr

/-- Everything `setup` builds that the claims are about. -/
structure ODEStructure where
  subsystems : List (String × SubsystemKind × Location)
  controlIterBalances : List BalanceSpec
  controlIterSolver : NewtonSolverSpec
  throttleBalanceComp : Option BalanceSpec
  throttleSolver : Option NewtonSolverSpec
  inputDefaults : List (String × ℚ × String)
deriving DecidableEq, Repr

/-- Input defaults installed at the end of `setup` (lines 230-245), each
broadcast over the node vector: density at sea level, speed of sound 1116.4
ft/s, flight-path angle 0 rad only when ground_roll is false, TAS 250 kn,
altitude 10000 ft, and zero dh_dr and d2h_dr2.  (`ParamPort.set_default_vals`
at line 228 additionally sets defaults of the external param port when
include_param_comp is on; those live outside src/ and outside the claims.) -/
def setupInputDefaults (ground_roll : Bool) : List (String × ℚ × String) :=
  [("rho", RHO_SEA_LEVEL_ENGLISH, "slug/ft**3"),
   (SPEED_OF_SOUND, 11164 / 10, "ft/s")]
  ++ (if ground_roll then [] else [(FLIGHT_PATH_ANGLE, 0, "rad")])
  ++ [("TAS", 250, "kn"),
      (ALTITUDE, 10000, "ft"),
      ("dh_dr", 0, "ft/range_units"),
      ("d2h_dr2", 0, "ft/range_units**2")]

/-- Embedding of `UnsteadySolvedODE.setup` (lines 65-245): the subsystem
tree it assembles, in source order, with the balance and solver
configurations and the input defaults. -/
def setup (opts : Options) : ODEStructure :=
  let nn := opts.num_nodes
  { subsystems :=
      (if opts.include_param_comp then
        [("params", SubsystemKind.paramPort, Location.topLevel),
         ("input_port", SubsystemKind.variablesIn, Location.topLevel)]
       else [])
      ++ [("USatm", SubsystemKind.atmosphere, Location.topLevel),
          ("flight_path_angle", SubsystemKind.gammaComp, Location.topLevel),
          ("fc", SubsystemKind.flightConditions, Location.topLevel),
          ("control_iter_group", SubsystemKind.group, Location.topLevel)]
      ++ (if opts.balance_throttle then
            [("throttle_balance_group", SubsystemKind.group,
              Location.topLevel),
             ("throttle_balance_comp", SubsystemKind.balanceComp,
              Location.throttleBalanceGroup)]
          else [])
      ++ builderPlacements opts.balance_throttle opts.core_subsystems
      ++ [("eom", SubsystemKind.eomComp, Location.controlIterGroup),
          ("thrust_alpha_bal", SubsystemKind.balanceComp,
           Location.controlIterGroup),
          ("mass_rate", SubsystemKind.execComp, Location.topLevel)]
    controlIterBalances :=
      (if opts.ground_roll then [] else [alphaBalance nn])
      ++ [thrustReqBalance nn]
    controlIterSolver := controlIterSolverSpec
    throttleBalanceComp :=
      if opts.balance_throttle then some (throttleBalance nn) else none
    throttleSolver :=
      if opts.balance_throttle then some throttleSolverSpec else none
    inputDefaults := setupInputDefaults opts.ground_roll }

/-- Names of the subsystems that the control_iter_group Newton solver
iterates over: exactly those added inside control_iter_group.  An OpenMDAO
nonlinear solver operates only on the children of its own group, so a
subsystem added directly on the ODE is not run inside the outer Newton
iteration. -/
def outerIterMembers (s : ODEStructure) : List String :=
  s.subsystems.filterMap
    (fun e => if e.2.2 = Location.controlIterGroup then some e.1 else none)

/-- A concrete configuration with throttle balancing on and one builder of
each kind, for counterexamples and witnesses. -/
def optsBT : Options :=
  { num_nodes := 2
    core_subsystems :=
      [{ name := "core_aerodynamics", kind := BuilderKind.aerodynamics,
         buildsSystem := true },
       { name := "core_propulsion", kind := BuilderKind.propulsion,
         buildsSystem := true }]
    ground_roll := false
    clean := false
    include_param_comp := true
    input_speed_type := SpeedType.TAS
    balance_throttle := true }

/-- A concrete configuration with throttle balancing off. -/
def optsNoBT : Options :=
  { num_nodes := 2
    core_subsystems :=
      [{ name := "core_aerodynamics", kind := BuilderKind.aerodynamics,
         buildsSystem := true },
       { name := "core_propulsion", kind := BuilderKind.propulsion,
         buildsSystem := true }]
    ground_roll := false
    clean := false
    include_param_comp := true
    input_speed_type := SpeedType.TAS
    balance_throttle := false }

/-- A concrete ground-roll configuration. -/
def optsGround : Options :=
  { num_nodes := 2
    core_subsystems := []
    ground_roll := true
    clean := false
    include_param_comp := false
    input_speed_type := SpeedType.TAS
    balance_throttle := false }

/-- Lookup of an installed input default by variable name. -/
def defaultOf (s : ODEStructure) (n : String) : Option (ℚ × String) :=
  (s.inputDefaults.find? (fun d => d.1 = n)).map (fun d => d.2)

/-- The normalization factor of a BalanceComp residual is strictly
positive for every rhs value. -/
theorem scaleFactor_pos (rhs : ℚ) : 0 < scaleFactor rhs := by
  unfold scaleFactor
  split
  · next h =>
      have h0 : (0 : ℚ) < |rhs| := lt_of_lt_of_le (by norm_num) h
      exact one_div_pos.mpr h0
  · have h0 : (0 : ℚ) < rhs ^ 2 / 4 + 1 := by positivity
    exact one_div_pos.mpr h0

/-- A normalized BalanceComp residual vanishes exactly when its two
operands are equal, because the normalization factor never vanishes. -/
theorem balanceResidual_zero_iff (lhs rhs : ℚ) :
    balanceResidual true lhs rhs = 0 ↔ lhs = rhs := by
  unfold balanceResidual
  simp only [if_pos]
  constructor
  · intro h
    rcases mul_eq_zero.mp h with h1 | h2
    · exact sub_eq_zero.mp h1
    · exact absurd h2 (ne_of_gt (scaleFactor_pos rhs))
  · rintro rfl
    simp

/-- Every subsystem contributed by the core-subsystems loop carries a
builderSystem kind. -/
theorem builderPlacements_kind (bt : Bool) (bs : List Builder) :
    ∀ e ∈ builderPlacements bt bs, ∃ k, e.2.1 = SubsystemKind.builderSystem k := by
  intro e he
  rcases List.mem_map.mp he with ⟨b, _, rfl⟩
  exact ⟨b.kind, rfl⟩

/-- Only aerodynamics builders are ever placed inside control_iter_group. -/
theorem builderLocation_controlIter (bt : Bool) (k : BuilderKind)
    (h : builderLocation bt k = Location.controlIterGroup) :
    k = BuilderKind.aerodynamics := by
  cases k with
  | aerodynamics => rfl
  | propulsion => cases bt <;> simp [builderLocation] at h
  | other => simp [builderLocation] at h

/-- C1: in ground-confined mode the outer balance has exactly one unknown
per node, required thrust, and neither the angle-of-attack unknown nor its
flight-path-angle-rate residual (dgam_dt_approx vs dgam_dt) is created;
otherwise the outer balance has both unknowns, alpha and thrust_req. -/
theorem c1_outer_unknowns (opts : Options) :
    ((setup opts).controlIterBalances.map BalanceSpec.name =
      if opts.ground_roll then ["thrust_req"] else ["alpha", "thrust_req"]) ∧
    (opts.ground_roll = true →
      ∀ b ∈ (setup opts).controlIterBalances,
        b.name ≠ "alpha" ∧ b.lhs_name ≠ "dgam_dt_approx" ∧
        b.rhs_name ≠ "dgam_dt") := by
  constructor
  · cases h : opts.ground_roll <;>
      simp [setup, h, alphaBalance, thrustReqBalance]
  · intro hg b hb
    simp only [setup, hg] at hb
    simp only [if_pos, List.nil_append, List.mem_singleton] at hb
    subst hb
    refine ⟨?_, ?_, ?_⟩ <;> simp [thrustReqBalance]

/-- C1 witness: in the concrete ground-roll configuration the only outer
unknown is thrust_req and no alpha or flight-path-angle-rate residual
exists. -/
theorem c1_witness :
    (setup optsGround).controlIterBalances.map BalanceSpec.name =
      ["thrust_req"] ∧
    ∀ b ∈ (setup optsGround).controlIterBalances,
      b.name ≠ "alpha" ∧ b.lhs_name ≠ "dgam_dt_approx" ∧
      b.rhs_name ≠ "dgam_dt" :=
  ⟨(c1_outer_unknowns optsGround).1, (c1_outer_unknowns optsGround).2 rfl⟩

/-- C2 counterexample: with throttle balancing enabled, neither the
throttle balance group nor the throttle balance component nor the
propulsion system is a child of control_iter_group, so the outer Newton
iteration does not contain the inner throttle solve; the throttle balance
group is added directly on the ODE, as a sibling of control_iter_group. -/
theorem c2_counterexample :
    "throttle_balance_group" ∉ outerIterMembers (setup optsBT) ∧
    "throttle_balance_comp" ∉ outerIterMembers (setup optsBT) ∧
    "core_propulsion" ∉ outerIterMembers (setup optsBT) ∧
    ("throttle_balance_group", SubsystemKind.group, Location.topLevel) ∈
      (setup optsBT).subsystems ∧
    ("throttle_balance_comp", SubsystemKind.balanceComp,
      Location.throttleBalanceGroup) ∈ (setup optsBT).subsystems := by
  decide

/-- C2 amended: when throttle balancing is enabled the throttle balance
group is added directly on the ODE as a sibling of control_iter_group, not
nested inside it; the children of control_iter_group are only the eom
component, the thrust_alpha_bal balance, and aerodynamics builder systems,
so the outer Newton iteration never runs the inner throttle solve.  The
inner solve (whose Newton solver has solve_subsystems true) runs the
propulsion subsystem placed inside its own group once per top-level pass,
after the outer group. -/
theorem c2_amended (opts : Options) :
    ((setup opts).throttleSolver =
      if opts.balance_throttle then some throttleSolverSpec else none) ∧
    throttleSolverSpec.solve_subsystems = true ∧
    (opts.balance_throttle = true →
      ("throttle_balance_group", SubsystemKind.group, Location.topLevel) ∈
        (setup opts).subsystems) ∧
    (∀ e ∈ (setup opts).subsystems, e.2.2 = Location.controlIterGroup →
      e.1 = "eom" ∨ e.1 = "thrust_alpha_bal" ∨
      e.2.1 = SubsystemKind.builderSystem BuilderKind.aerodynamics) := by
  refine ⟨rfl, rfl, ?_, ?_⟩
  · intro hbt
    cases hp : opts.include_param_comp <;>
      simp [setup, hbt, hp, List.mem_append]
  · intro e he hloc
    simp only [setup, List.mem_append] at he
    rcases he with ((((h1 | h2) | h3) | h4) | h5)
    · cases hp : opts.include_param_comp <;>
        (simp [hp] at h1
         try (rcases h1 with rfl | rfl) <;> simp at hloc)
    · simp only [List.mem_cons, List.not_mem_nil, or_false] at h2
      rcases h2 with rfl | rfl | rfl | rfl <;> simp at hloc
    · cases hbt : opts.balance_throttle <;>
        (simp [hbt] at h3
         try (rcases h3 with rfl | rfl) <;> simp at hloc)
    · rcases List.mem_map.mp h4 with ⟨b, _, rfl⟩
      right; right
      simp only at hloc ⊢
      rw [builderLocation_controlIter opts.balance_throttle b.kind hloc]
    · simp only [List.mem_cons, List.not_mem_nil, or_false] at h5
      rcases h5 with rfl | rfl | rfl <;> simp at hloc <;> simp

/-- C2 amended witness: in the concrete throttle-balancing configuration
the throttle balance group exists at top level and every child of
control_iter_group is the eom component, the thrust_alpha_bal balance, or
an aerodynamics builder system. -/
theorem c2_amended_witness :
    ((setup optsBT).throttleSolver = some throttleSolverSpec) ∧
    ("throttle_balance_group", SubsystemKind.group, Location.topLevel) ∈
      (setup optsBT).subsystems ∧
    (∀ e ∈ (setup optsBT).subsystems, e.2.2 = Location.controlIterGroup →
      e.1 = "eom" ∨ e.1 = "thrust_alpha_bal" ∨
      e.2.1 = SubsystemKind.builderSystem BuilderKind.aerodynamics) :=
  ⟨(c2_amended optsBT).1, (c2_amended optsBT).2.2.1 rfl,
   (c2_amended optsBT).2.2.2⟩

/-- C3 counterexample: the inner throttle solver tolerances equal the
outer solver tolerances (both atol and rtol are 1e-10), so the inner
tolerance is not strictly tighter than the outer one. -/
theorem c3_counterexample :
    (setup optsBT).throttleSolver = some throttleSolverSpec ∧
    throttleSolverSpec.atol = (setup optsBT).controlIterSolver.atol ∧
    throttleSolverSpec.rtol = (setup optsBT).controlIterSolver.rtol ∧
    ¬ throttleSolverSpec.atol < (setup optsBT).controlIterSolver.atol ∧
    ¬ throttleSolverSpec.rtol < (setup optsBT).controlIterSolver.rtol := by
  refine ⟨rfl, rfl, rfl, ?_, ?_⟩ <;> exact lt_irrefl _

/-- C3 amended: the inner throttle balance solver has its own tolerance,
but it equals the outer balance solver tolerance: both solvers use
atol = rtol = 1e-10. -/
theorem c3_amended (opts : Options) :
    ((setup opts).throttleSolver =
      if opts.balance_throttle then some throttleSolverSpec else none) ∧
    (setup opts).controlIterSolver = controlIterSolverSpec ∧
    throttleSolverSpec.atol = controlIterSolverSpec.atol ∧
    throttleSolverSpec.rtol = controlIterSolverSpec.rtol ∧
    controlIterSolverSpec.atol = 1 / 10 ^ 10 ∧
    controlIterSolverSpec.rtol = 1 / 10 ^ 10 :=
  ⟨rfl, rfl, rfl, rfl, rfl, rfl⟩

/-- C4 counterexample: the outer control-iteration Newton solver never
sets err_on_non_converge, so it keeps the library default false and does
not raise a distinguished error when the iteration budget is exhausted;
the partially updated unknowns remain exposed. -/
theorem c4_counterexample :
    raisesOnNonConvergence (setup optsBT).controlIterSolver = false ∧
    raisesOnNonConvergence (setup optsNoBT).controlIterSolver = false := by
  exact ⟨rfl, rfl⟩

/-- C4 amended: only the inner throttle solver is configured to raise a
distinguished error on non-convergence (err_on_non_converge true); the
outer control-iteration solver leaves err_on_non_converge at the default
false, so exhausting the outer iteration budget is not reported as an
error and the partially updated alpha and thrust_req values are exposed. -/
theorem c4_amended (opts : Options) :
    raisesOnNonConvergence (setup opts).controlIterSolver = false ∧
    (opts.balance_throttle = true →
      ∃ s, (setup opts).throttleSolver = some s ∧
        raisesOnNonConvergence s = true) := by
  refine ⟨rfl, ?_⟩
  intro hbt
  exact ⟨throttleSolverSpec, by simp [setup, hbt], rfl⟩

/-- C4 amended witness: in the concrete throttle-balancing configuration
the outer solver does not raise on non-convergence while the inner one
does. -/
theorem c4_amended_witness :
    raisesOnNonConvergence (setup optsBT).controlIterSolver = false ∧
    ∃ s, (setup optsBT).throttleSolver = some s ∧
      raisesOnNonConvergence s = true :=
  ⟨(c4_amended optsBT).1, (c4_amended optsBT).2 rfl⟩

/-- C5: when throttle balancing is enabled the per-node throttle unknown
carries the bounds 0 and 1, the inner Newton solver enforces them through
its BoundsEnforceLS line search, and a vanishing (normalized) balance
residual is equivalent to delivered total thrust equalling the required
thrust, for every node value. -/
theorem c5_throttle_bounds (opts : Options) :
    ((setup opts).throttleBalanceComp =
      if opts.balance_throttle then some (throttleBalance opts.num_nodes)
      else none) ∧
    (throttleBalance opts.num_nodes).lower = some 0 ∧
    (throttleBalance opts.num_nodes).upper = some 1 ∧
    ((setup opts).throttleSolver =
      if opts.balance_throttle then some throttleSolverSpec else none) ∧
    throttleSolverSpec.linesearch = some Linesearch.boundsEnforceLS ∧
    (throttleBalance opts.num_nodes).lhs_name = THRUST_TOTAL ∧
    (throttleBalance opts.num_nodes).rhs_name = "thrust_req" ∧
    ∀ lhs rhs : ℚ,
      (balanceResidual (throttleBalance opts.num_nodes).normalize lhs rhs = 0
        ↔ lhs = rhs) :=
  ⟨rfl, rfl, rfl, rfl, rfl, rfl, rfl,
   fun lhs rhs => balanceResidual_zero_iff lhs rhs⟩

/-- C6: the mass_rate subsystem is an ExecComp added directly on the ODE,
and its output is the pure per-node algebraic product dmass_dr equals
fuelflow times dt_dr, with one output entry per paired node. -/
theorem c6_mass_rate (opts : Options) (ff dt : List ℚ) (i : Nat)
    (h1 : i < ff.length) (h2 : i < dt.length) :
    ("mass_rate", SubsystemKind.execComp, Location.topLevel) ∈
      (setup opts).subsystems ∧
    (dmass_dr ff dt).getD i 0 = ff.getD i 0 * dt.getD i 0 ∧
    (dmass_dr ff dt).length = min ff.length dt.length := by
  refine ⟨?_, ?_, ?_⟩
  · simp [setup, List.mem_append]
  · induction ff generalizing dt i with
    | nil => simp at h1
    | cons f fs ih =>
      cases dt with
      | nil => simp at h2
      | cons t ts =>
        cases i with
        | zero => simp [dmass_dr]
        | succ n =>
            simpa [dmass_dr] using
              ih ts n (by simpa using h1) (by simpa using h2)
  · simp [dmass_dr]

/-- C6 witness: the mass-rate product evaluated at a concrete two-node
input. -/
theorem c6_witness :
    ("mass_rate", SubsystemKind.execComp, Location.topLevel) ∈
      (setup optsNoBT).subsystems ∧
    (dmass_dr [2, 5] [3, 7]).getD 1 0 =
      ([2, 5] : List ℚ).getD 1 0 * ([3, 7] : List ℚ).getD 1 0 ∧
    (dmass_dr [2, 5] [3, 7]).length =
      min ([2, 5] : List ℚ).length ([3, 7] : List ℚ).length :=
  c6_mass_rate optsNoBT [2, 5] [3, 7] 1 (by decide) (by decide)

/-- C7: the thrust_req balance of the outer solve is created with no lower
and no upper bound, so negative or arbitrarily large trial values are
admissible; every outer balance named thrust_req is unbounded. -/
theorem c7_thrust_req_unbounded (opts : Options) :
    thrustReqBalance opts.num_nodes ∈ (setup opts).controlIterBalances ∧
    (thrustReqBalance opts.num_nodes).lower = none ∧
    (thrustReqBalance opts.num_nodes).upper = none ∧
    (∀ b ∈ (setup opts).controlIterBalances, b.name = "thrust_req" →
      b.lower = none ∧ b.upper = none) := by
  refine ⟨?_, rfl, rfl, ?_⟩
  · cases h : opts.ground_roll <;> simp [setup, h]
  · intro b hb _
    simp only [setup, List.mem_append] at hb
    rcases hb with hb | hb
    · cases h : opts.ground_roll <;> simp [h] at hb
      subst hb
      exact ⟨rfl, rfl⟩
    · simp only [List.mem_singleton] at hb
      subst hb
      exact ⟨rfl, rfl⟩

/-- C7 witness: at the concrete two-node configuration the thrust_req
balance is present and unbounded. -/
theorem c7_witness :
    thrustReqBalance 2 ∈ (setup optsNoBT).controlIterBalances ∧
    (thrustReqBalance 2).lower = none ∧ (thrustReqBalance 2).upper = none :=
  ⟨(c7_thrust_req_unbounded optsNoBT).1,
   ((c7_thrust_req_unbounded optsNoBT).2.2.2 (thrustReqBalance 2)
     (c7_thrust_req_unbounded optsNoBT).1 rfl).1,
   ((c7_thrust_req_unbounded optsNoBT).2.2.2 (thrustReqBalance 2)
     (c7_thrust_req_unbounded optsNoBT).1 rfl).2⟩

/-- C8 counterexample: no declared option of the subsystem names a maximum
iteration count or a convergence tolerance, the outer solver maxiter is
left unset (so the implicit library default applies), and the outer solver
configuration is identical across two configurations differing in every
declared flag, so neither quantity is a required explicit input. -/
theorem c8_counterexample :
    "maxiter" ∉ declaredOptionNames ∧
    "atol" ∉ declaredOptionNames ∧
    "rtol" ∉ declaredOptionNames ∧
    "tolerance" ∉ declaredOptionNames ∧
    (setup optsBT).controlIterSolver.maxiter = none ∧
    (setup optsBT).controlIterSolver = (setup optsGround).controlIterSolver :=
  ⟨by decide, by decide, by decide, by decide, rfl, rfl⟩

/-- C8 amended: the maximum iteration count and the convergence tolerance
are not configurable inputs: the outer solver tolerances are hard-coded to
1e-10 for every configuration, maxiter is never set and falls back to the
implicit solver default, and no declared option exposes either quantity. -/
theorem c8_amended (opts : Options) :
    (setup opts).controlIterSolver = controlIterSolverSpec ∧
    controlIterSolverSpec.atol = 1 / 10 ^ 10 ∧
    controlIterSolverSpec.rtol = 1 / 10 ^ 10 ∧
    controlIterSolverSpec.maxiter = none ∧
    "maxiter" ∉ declaredOptionNames ∧
    "atol" ∉ declaredOptionNames ∧
    "rtol" ∉ declaredOptionNames :=
  ⟨rfl, rfl, rfl, rfl, by decide, by decide, by decide⟩

/-- C9: a propulsion builder whose build_mission returns a system is
placed inside the throttle balance group exactly when balance_throttle is
true and directly on the ODE otherwise, and in neither case inside the
outer control-iteration group. -/
theorem c9_propulsion_placement (opts : Options) (b : Builder)
    (hb : b ∈ opts.core_subsystems)
    (hk : b.kind = BuilderKind.propulsion)
    (hs : b.buildsSystem = true) :
    (b.name, SubsystemKind.builderSystem BuilderKind.propulsion,
      if opts.balance_throttle then Location.throttleBalanceGroup
      else Location.topLevel) ∈ (setup opts).subsystems ∧
    builderLocation opts.balance_throttle BuilderKind.propulsion ≠
      Location.controlIterGroup := by
  constructor
  · have hmem : (b.name, SubsystemKind.builderSystem BuilderKind.propulsion,
        if opts.balance_throttle then Location.throttleBalanceGroup
        else Location.topLevel) ∈
        builderPlacements opts.balance_throttle opts.core_subsystems := by
      refine List.mem_map.mpr ⟨b, List.mem_filter.mpr ⟨hb, by simp [hs]⟩, ?_⟩
      rw [hk]
      cases hbt : opts.balance_throttle <;> simp [builderLocation]
    simp only [setup, List.mem_append]
    exact Or.inl (Or.inr hmem)
  · cases hbt : opts.balance_throttle <;> simp [builderLocation]

/-- C9 witness: in the concrete throttle-balancing configuration the
propulsion system sits inside the throttle balance group, not in the
outer group. -/
theorem c9_witness :
    ("core_propulsion", SubsystemKind.builderSystem BuilderKind.propulsion,
      Location.throttleBalanceGroup) ∈ (setup optsBT).subsystems ∧
    builderLocation true BuilderKind.propulsion ≠
      Location.controlIterGroup :=
  c9_propulsion_placement optsBT
    { name := "core_propulsion", kind := BuilderKind.propulsion,
      buildsSystem := true }
    (by decide) rfl rfl

/-- C10: setup installs the fixed per-node input defaults (density at sea
level, speed of sound 1116.4 ft/s, TAS 250 kn, altitude 10000 ft, zero
dh_dr and d2h_dr2, and flight-path angle 0 rad only when ground_roll is
false), and the initial trial values are alpha 0 rad, thrust_req 100 N and
throttle 0.5 per node. -/
theorem c10_defaults (opts : Options) :
    defaultOf (setup opts) "rho" =
      some (RHO_SEA_LEVEL_ENGLISH, "slug/ft**3") ∧
    defaultOf (setup opts) SPEED_OF_SOUND = some (11164 / 10, "ft/s") ∧
    defaultOf (setup opts) "TAS" = some (250, "kn") ∧
    defaultOf (setup opts) ALTITUDE = some (10000, "ft") ∧
    defaultOf (setup opts) "dh_dr" = some (0, "ft/range_units") ∧
    defaultOf (setup opts) "d2h_dr2" = some (0, "ft/range_units**2") ∧
    (defaultOf (setup opts) FLIGHT_PATH_ANGLE =
      if opts.ground_roll then none else some (0, "rad")) ∧
    thrustReqBalance opts.num_nodes ∈ (setup opts).controlIterBalances ∧
    (thrustReqBalance opts.num_nodes).initVal =
      List.replicate opts.num_nodes 100 ∧
    (thrustReqBalance opts.num_nodes).units = "N" ∧
    (opts.ground_roll = false →
      alphaBalance opts.num_nodes ∈ (setup opts).controlIterBalances) ∧
    (alphaBalance opts.num_nodes).initVal =
      List.replicate opts.num_nodes 0 ∧
    (alphaBalance opts.num_nodes).units = "rad" ∧
    ((setup opts).throttleBalanceComp =
      if opts.balance_throttle then some (throttleBalance opts.num_nodes)
      else none) ∧
    (throttleBalance opts.num_nodes).initVal =
      List.replicate opts.num_nodes (1 / 2) := by
  refine ⟨?_, ?_, ?_, ?_, ?_, ?_, ?_, ?_, rfl, rfl, ?_, rfl, rfl, rfl, rfl⟩
  · cases h : opts.ground_roll <;>
      simp [setup, h, defaultOf, setupInputDefaults]
  · cases h : opts.ground_roll <;>
      simp [setup, h, defaultOf, setupInputDefaults, SPEED_OF_SOUND]
  · cases h : opts.ground_roll <;>
      simp [setup, h, defaultOf, setupInputDefaults, SPEED_OF_SOUND,
            FLIGHT_PATH_ANGLE]
  · cases h : opts.ground_roll <;>
      simp [setup, h, defaultOf, setupInputDefaults, SPEED_OF_SOUND,
            FLIGHT_PATH_ANGLE, ALTITUDE]
  · cases h : opts.ground_roll <;>
      simp [setup, h, defaultOf, setupInputDefaults, SPEED_OF_SOUND,
            FLIGHT_PATH_ANGLE, ALTITUDE]
  · cases h : opts.ground_roll <;>
      simp [setup, h, defaultOf, setupInputDefaults, SPEED_OF_SOUND,
            FLIGHT_PATH_ANGLE, ALTITUDE]
  · cases h : opts.ground_roll <;>
      simp [setup, h, defaultOf, setupInputDefaults, SPEED_OF_SOUND,
            FLIGHT_PATH_ANGLE, ALTITUDE]
  · cases h : opts.ground_roll <;> simp [setup, h]
  · intro hg
    simp [setup, hg]

/-- C10 witness: in the concrete non-ground configuration the flight-path
angle default and the alpha balance are present. -/
theorem c10_witness :
    defaultOf (setup optsBT) FLIGHT_PATH_ANGLE = some (0, "rad") ∧
    alphaBalance 2 ∈ (setup optsBT).controlIterBalances :=
  ⟨(c10_defaults optsBT).2.2.2.2.2.2.1,
   (c10_defaults optsBT).2.2.2.2.2.2.2.2.2.2.1 rfl⟩

end Aviary
